import Mathlib

/-!
Shallow embedding of `pcdsdevices/lodcm.py` (the LODCM large-offset
dual-crystal monochromator device) and proofs about its derivation logic:
beam destination, diagnostics-clear, per-tower material classification,
reflection resolution and the energy readback path.

Positioner positions are the state strings reported by the hardware
(`'OUT'`, `'C'`, `'Si'`, ..., or anything else for an unknown state).
-/

namespace Lodcm

/-- Snapshot of every readback that the LODCM derivation queries consult:
the discrete state positioners declared as components of `LODCM`
(`h1n`, `yag`, `dectris`, `diode`, `foil`, `y1_state`, `chi1_state`,
`h2n_state`, `y2_state`, `chi2_state`), the four reflection readback
signals, the two tower-1 angle pseudo-axes, and the branch names passed
to `LODCM.__init__`. -/
structure LodcmState where
  h1n : String
  yag : String
  dectris : String
  diode : String
  foil : String
  y1_state : String
  chi1_state : String
  h2n_state : String
  y2_state : String
  chi2_state : String
  t1_c_ref : List Int
  t1_si_ref : List Int
  t2_c_ref : List Int
  t2_si_ref : List Int
  th1_si : ℚ
  th1_c : ℚ
  main_line : String
  mono_line : String
  deriving DecidableEq

/-- Out-states of `YagLom`: the class overrides `states_list`/`in_states`
only, so the out set is the base-class default. Modelled from the spec:
`InOutRecordPositioner` itself is not part of this module; per the spec a
positioner `is_removed()` iff its current state is in its "out" set, and
the default out set is the single explicit `OUT` state. -/
def yagOutStates : List String := ["OUT"]

/-- Out-states of `Dectris`, set explicitly in the class body. -/
def dectrisOutStates : List String := ["OUT", "OUTLOW"]

/-- Out-states of `Foil`: the class sets `states_list`/`in_states` only,
so as for `YagLom` the out set is the default `["OUT"]`. -/
def foilOutStates : List String := ["OUT"]

/-- Out-states of `Diode` (`states_list = ['OUT', 'IN']`, default out set). -/
def diodeOutStates : List String := ["OUT"]

/-- Modelled from the spec: `is_removed()` of a discrete state positioner
is true iff its current state lies in the positioner's "out" set
(`InOutRecordPositioner.removed`, defined outside this module). -/
def removedState (outStates : List String) (pos : String) : Bool :=
  outStates.contains pos

/-- `LODCM._dia_clear`: the yag, dectris and foil positioners are all
removed; the diode is not consulted. -/
def diaClear (s : LodcmState) : Bool :=
  removedState yagOutStates s.yag &&
    removedState dectrisOutStates s.dectris &&
    removedState foilOutStates s.foil

/-- The classification step of `LODCM.destination` (the `dest` local
before the diagnostics filter): branch list from the `h1n` state alone. -/
def destinationRaw (s : LodcmState) : List String :=
  if s.h1n = "OUT" then [s.main_line]
  else if s.h1n = "Si" then [s.mono_line]
  else if s.h1n = "C" then [s.main_line, s.mono_line]
  else []

/-- `LODCM.destination`: classification by `h1n`, then if the diagnostics
are not clear the mono line is removed from the result (Python
`list.remove` drops the first occurrence). -/
def destination (s : LodcmState) : List String :=
  let dest := destinationRaw s
  if !diaClear s && dest.contains s.mono_line then dest.erase s.mono_line
  else dest

/-- `LODCM._is_tower_1_c`. -/
def isTower1C (s : LodcmState) : Bool :=
  (s.h1n == "C" || s.h1n == "OUT") && s.y1_state == "C" && s.chi1_state == "C"

/-- `LODCM._is_tower_1_si`. -/
def isTower1Si (s : LodcmState) : Bool :=
  (s.h1n == "Si" || s.h1n == "OUT") && s.y1_state == "Si" && s.chi1_state == "Si"

/-- `LODCM._is_tower_2_c`. -/
def isTower2C (s : LodcmState) : Bool :=
  s.h2n_state == "C" && s.y2_state == "C" && s.chi2_state == "C"

/-- `LODCM._is_tower_2_si`. -/
def isTower2Si (s : LodcmState) : Bool :=
  s.h2n_state == "Si" && s.y2_state == "Si" && s.chi2_state == "Si"

/-- The distinct `ValueError`s raised by the LODCM queries, told apart by
their messages in the Python source. -/
inductive LodcmError where
  /-- `'Invalid Crystal Arrangement.'` — the two towers disagree. -/
  | mismatch : LodcmError
  /-- `"Unable to determine crystal's material."` -/
  | indeterminateMaterial : LodcmError
  /-- `'Unable to determine the crystal reflection'` -/
  | indeterminateReflection : LodcmError
  /-- `'Invalid material Id: ...'` -/
  | invalidMaterial : LodcmError
  deriving DecidableEq

/-- `LODCM._get_material(tower_num, check)`: per-tower classification with
early returns; the trailing `if check: raise` is reached whenever no
branch returned, and without `check` the function returns `None`. -/
def getMaterialTower (towerNum : Nat) (check : Bool) (s : LodcmState) :
    Except LodcmError (Option String) :=
  if towerNum = 1 then
    if isTower1C s then Except.ok (some "C")
    else if isTower1Si s then Except.ok (some "Si")
    else if check then Except.error LodcmError.indeterminateMaterial
    else Except.ok none
  else if towerNum = 2 then
    if isTower2C s then Except.ok (some "C")
    else if isTower2Si s then Except.ok (some "Si")
    else if check then Except.error LodcmError.indeterminateMaterial
    else Except.ok none
  else if check then Except.error LodcmError.indeterminateMaterial
  else Except.ok none

/-- `LODCM.get_first_tower_material(check)`. -/
def getFirstTowerMaterial (check : Bool) (s : LodcmState) :
    Except LodcmError (Option String) :=
  getMaterialTower 1 check s

/-- `LODCM.get_second_tower_material(check)`. -/
def getSecondTowerMaterial (check : Bool) (s : LodcmState) :
    Except LodcmError (Option String) :=
  getMaterialTower 2 check s

/-- `LODCM.get_material(check)`: raise `Invalid Crystal Arrangement.` when
the two per-tower results differ, else return the tower-1 result. -/
def getMaterial (check : Bool) (s : LodcmState) :
    Except LodcmError (Option String) := do
  let m1 ← getFirstTowerMaterial check s
  let m2 ← getSecondTowerMaterial check s
  if m1 ≠ m2 then Except.error LodcmError.mismatch
  else Except.ok m1

/-- Statement-side abbreviation: the material tower 1 classifies to,
`none` when indeterminate.  Linked to `getMaterialTower` by
`getMaterialTower_one_eq`. -/
def tower1Mat (s : LodcmState) : Option String :=
  if isTower1C s then some "C"
  else if isTower1Si s then some "Si"
  else none

/-- Statement-side abbreviation: the material tower 2 classifies to. -/
def tower2Mat (s : LodcmState) : Option String :=
  if isTower2C s then some "C"
  else if isTower2Si s then some "Si"
  else none

/-- The reflection register chosen by `LODCM._get_reflection` (the `refs`
local): the register of the classified material of the requested tower,
`None` when the tower is indeterminate. -/
def towerRefs (towerNum : Nat) (s : LodcmState) : Option (List Int) :=
  if towerNum = 1 then
    if isTower1C s then some s.t1_c_ref
    else if isTower1Si s then some s.t1_si_ref
    else none
  else if towerNum = 2 then
    if isTower2C s then some s.t2_c_ref
    else if isTower2Si s then some s.t2_si_ref
    else none
  else none

/-- The `for r in refs` loop of `LODCM._get_reflection`: starting from
`ref = None`, append `str(r)` for each component. -/
def renderRefLoop (refs : List Int) : Option String :=
  refs.foldl
    (fun ref r =>
      match ref with
      | none => some (toString r)
      | some a => some (a ++ toString r))
    none

/-- A `_get_reflection` result: the raw register tuple (`as_tuple=True`)
or its string rendering (`as_tuple=False`). -/
inductive RefVal where
  | tup : List Int → RefVal
  | strVal : String → RefVal
  deriving DecidableEq

/-- `LODCM._get_reflection(tower_num, as_tuple, check)`. -/
def getReflectionTower (towerNum : Nat) (asTuple check : Bool)
    (s : LodcmState) : Except LodcmError (Option RefVal) :=
  let refs := towerRefs towerNum s
  if check && refs.isNone then
    Except.error LodcmError.indeterminateReflection
  else if asTuple then Except.ok (refs.map RefVal.tup)
  else
    Except.ok ((refs.bind renderRefLoop).map RefVal.strVal)

/-- `LODCM.get_first_tower_reflection(as_tuple, check)`. -/
def getFirstTowerReflection (asTuple check : Bool) (s : LodcmState) :
    Except LodcmError (Option RefVal) :=
  getReflectionTower 1 asTuple check s

/-- The external numeric collaborators of the energy readback path, kept
abstract: `pcdscalc.misc_calcs.d_space`, `pcdscalc.misc_calcs.wavelength_to_energy`,
`np.sin` and `np.deg2rad` live outside this module. -/
structure GeomCalc where
  dSpace : String → List Int → ℚ
  wavelengthToEnergy : ℚ → ℚ
  sin : ℚ → ℚ
  deg2rad : ℚ → ℚ

/-- `LODCM.get_first_tower_energy(material, reflection)`: resolve the
reflection (via `get_first_tower_reflection(as_tuple=True, check=True)`)
and the material (via `get_first_tower_material(check=True)`) when not
supplied, read `th1_si` for Si and `th1_c` for C (else raise), then
`wavelength_to_energy(2 * sin(deg2rad(th)) * d_space(material, reflection)) / 1000`. -/
def getFirstTowerEnergy (c : GeomCalc) (s : LodcmState)
    (material : Option String) (reflection : Option (List Int)) :
    Except LodcmError ℚ := do
  let refl : List Int ←
    match reflection with
    | some r => Except.ok r
    | none =>
      match towerRefs 1 s with
      | none => Except.error LodcmError.indeterminateReflection
      | some r => Except.ok r
  let mat : Option String ←
    match material with
    | some m => Except.ok (some m)
    | none => getFirstTowerMaterial true s
  match mat with
  | none => Except.error LodcmError.invalidMaterial
  | some m =>
    let th : ℚ ←
      if m = "Si" then Except.ok s.th1_si
      else if m = "C" then Except.ok s.th1_c
      else Except.error LodcmError.invalidMaterial
    let length := 2 * c.sin (c.deg2rad th) * c.dSpace m refl
    Except.ok (c.wavelengthToEnergy length / 1000)

/-- `LODCM.get_energy(material, reflection)`: delegates to the first
tower. -/
def getEnergy (c : GeomCalc) (s : LodcmState) (material : Option String)
    (reflection : Option (List Int)) : Except LodcmError ℚ :=
  getFirstTowerEnergy c s material reflection

/-- The diagnostic sub-devices of the LODCM. -/
inductive DiaDevice where
  | yag : DiaDevice
  | dectris : DiaDevice
  | diode : DiaDevice
  | foil : DiaDevice
  deriving DecidableEq

/-- The devices `LODCM.remove_dia` iterates over, in order: the tuple
`(self.yag, self.dectris, self.diode, self.foil)` each of which gets a
`remove` command whose status is and-joined into the returned status. -/
def removeDiaDevices : List DiaDevice :=
  [DiaDevice.yag, DiaDevice.dectris, DiaDevice.diode, DiaDevice.foil]

/-- The devices whose `removed` state `LODCM._dia_clear` reads. -/
def diaClearDevices : List DiaDevice :=
  [DiaDevice.yag, DiaDevice.dectris, DiaDevice.foil]

/-- Concatenation, in order, of the string renderings of a reflection
tuple's components (the value `_get_reflection` is specified to build
when `as_tuple` is false). -/
def strConcat : List Int → String
  | [] => ""
  | r :: rest => toString r ++ strConcat rest

/-- Concrete snapshot: both towers fully in silicon, diagnostics clear,
tower-1 Si reflection register reading `(1, 1, 1)`. -/
def stateSi : LodcmState :=
  { h1n := "Si", yag := "OUT", dectris := "OUT", diode := "IN", foil := "OUT"
    y1_state := "Si", chi1_state := "Si"
    h2n_state := "Si", y2_state := "Si", chi2_state := "Si"
    t1_c_ref := [2, 2, 0], t1_si_ref := [1, 1, 1]
    t2_c_ref := [2, 2, 0], t2_si_ref := [1, 1, 1]
    th1_si := 10, th1_c := 20, main_line := "MAIN", mono_line := "MONO" }

/-- Concrete snapshot: `h1n` out, diagnostics clear. -/
def stateOut : LodcmState := { stateSi with h1n := "OUT" }

/-- Concrete snapshot: tower 1 in diamond, tower 2 in silicon. -/
def stateT1C2Si : LodcmState :=
  { stateSi with h1n := "C", y1_state := "C", chi1_state := "C" }

/-- Concrete snapshot: tower 1 indeterminate, tower 2 in silicon. -/
def stateT1Un : LodcmState :=
  { stateSi with h1n := "Unknown", y1_state := "Unknown", chi1_state := "Unknown" }

/-- Concrete snapshot: both towers indeterminate. -/
def stateAllUn : LodcmState := { stateT1Un with h2n_state := "Unknown" }

/-- A concrete instantiation of the abstract numeric collaborators, used
to evaluate the energy path at one input. -/
def calc1 : GeomCalc :=
  { dSpace := fun _ _ => 3, wavelengthToEnergy := fun x => x + 1
    sin := fun x => x * 2, deg2rad := fun x => x }

/-! ### Helper lemmas -/

lemma isTower1C_iff (s : LodcmState) :
    isTower1C s = true ↔
      (s.h1n = "C" ∨ s.h1n = "OUT") ∧ s.y1_state = "C" ∧ s.chi1_state = "C" := by
  simp [isTower1C, and_assoc]

lemma isTower1Si_iff (s : LodcmState) :
    isTower1Si s = true ↔
      (s.h1n = "Si" ∨ s.h1n = "OUT") ∧ s.y1_state = "Si" ∧ s.chi1_state = "Si" := by
  simp [isTower1Si, and_assoc]

lemma isTower2C_iff (s : LodcmState) :
    isTower2C s = true ↔
      s.h2n_state = "C" ∧ s.y2_state = "C" ∧ s.chi2_state = "C" := by
  simp [isTower2C, and_assoc]

lemma isTower2Si_iff (s : LodcmState) :
    isTower2Si s = true ↔
      s.h2n_state = "Si" ∧ s.y2_state = "Si" ∧ s.chi2_state = "Si" := by
  simp [isTower2Si, and_assoc]

lemma not_tower1_both (s : LodcmState) :
    isTower1C s = true → isTower1Si s = true → False := by
  rw [isTower1C_iff, isTower1Si_iff]
  rintro ⟨_, hy, _⟩ ⟨_, hy', _⟩
  rw [hy] at hy'
  exact absurd hy' (by decide)

lemma not_tower2_both (s : LodcmState) :
    isTower2C s = true → isTower2Si s = true → False := by
  rw [isTower2C_iff, isTower2Si_iff]
  rintro ⟨_, hy, _⟩ ⟨_, hy', _⟩
  rw [hy] at hy'
  exact absurd hy' (by decide)

lemma destination_eq (s : LodcmState) (hne : s.main_line ≠ s.mono_line) :
    destination s =
      if s.h1n = "OUT" then [s.main_line]
      else if s.h1n = "Si" then (if diaClear s then [s.mono_line] else [])
      else if s.h1n = "C" then
        (if diaClear s then [s.main_line, s.mono_line] else [s.main_line])
      else [] := by
  unfold destination destinationRaw
  by_cases h1 : s.h1n = "OUT" <;> by_cases h2 : s.h1n = "Si" <;>
    by_cases h3 : s.h1n = "C" <;> by_cases hd : diaClear s <;>
    simp_all [List.erase_cons, List.contains, Ne.symm hne]

lemma getMaterialTower_one (check : Bool) (s : LodcmState) :
    getMaterialTower 1 check s =
      match tower1Mat s with
      | some m => Except.ok (some m)
      | none =>
        if check then Except.error LodcmError.indeterminateMaterial
        else Except.ok none := by
  unfold getMaterialTower tower1Mat
  by_cases h1 : isTower1C s <;> by_cases h2 : isTower1Si s <;> simp [h1, h2]

lemma getMaterialTower_two (check : Bool) (s : LodcmState) :
    getMaterialTower 2 check s =
      match tower2Mat s with
      | some m => Except.ok (some m)
      | none =>
        if check then Except.error LodcmError.indeterminateMaterial
        else Except.ok none := by
  unfold getMaterialTower tower2Mat
  by_cases h1 : isTower2C s <;> by_cases h2 : isTower2Si s <;> simp [h1, h2]

lemma getMaterial_eq (check : Bool) (s : LodcmState) :
    getMaterial check s =
      match tower1Mat s with
      | none =>
        if check then Except.error LodcmError.indeterminateMaterial
        else
          match tower2Mat s with
          | none => Except.ok none
          | some _ => Except.error LodcmError.mismatch
      | some m1 =>
        match tower2Mat s with
        | none =>
          if check then Except.error LodcmError.indeterminateMaterial
          else Except.error LodcmError.mismatch
        | some m2 =>
          if m1 = m2 then Except.ok (some m1)
          else Except.error LodcmError.mismatch := by
  rcases h1 : tower1Mat s with _ | m1 <;> rcases h2 : tower2Mat s with _ | m2 <;>
    cases check <;>
    simp [getMaterial, getFirstTowerMaterial, getSecondTowerMaterial,
      getMaterialTower_one, getMaterialTower_two, h1, h2, Except.instMonad,
      Except.bind]

/-! ### Claim theorems -/

/-- Claim C1: `destination` yields exactly `[main_line]` for `h1n = 'OUT'`,
`[mono_line]` for `'Si'`, `[main_line, mono_line]` for `'C'` and `[]` for
any other state; after this classification the mono line is removed
whenever the diagnostics are not clear, so the result never contains the
mono line when the diagnostics are not clear and is empty whenever the
lead state is unknown. -/
theorem destination_correct (s : LodcmState)
    (hne : s.main_line ≠ s.mono_line) :
    (s.h1n = "OUT" →
      destinationRaw s = [s.main_line] ∧ destination s = [s.main_line]) ∧
    (s.h1n = "Si" →
      destinationRaw s = [s.mono_line] ∧
        destination s = if diaClear s then [s.mono_line] else []) ∧
    (s.h1n = "C" →
      destinationRaw s = [s.main_line, s.mono_line] ∧
        destination s =
          if diaClear s then [s.main_line, s.mono_line] else [s.main_line]) ∧
    (s.h1n ≠ "OUT" → s.h1n ≠ "Si" → s.h1n ≠ "C" →
      destinationRaw s = [] ∧ destination s = []) ∧
    (diaClear s = false → s.mono_line ∉ destination s) := by
  refine ⟨?_, ?_, ?_, ?_, ?_⟩
  · intro h
    refine ⟨by simp [destinationRaw, h], ?_⟩
    rw [destination_eq s hne]
    simp [h]
  · intro h
    refine ⟨by simp [destinationRaw, h], ?_⟩
    rw [destination_eq s hne]
    simp [h]
  · intro h
    refine ⟨by simp [destinationRaw, h], ?_⟩
    rw [destination_eq s hne]
    simp [h]
  · intro h1 h2 h3
    refine ⟨by simp [destinationRaw, h1, h2, h3], ?_⟩
    rw [destination_eq s hne]
    simp [h1, h2, h3]
  · intro hd
    rw [destination_eq s hne]
    split_ifs <;> simp_all [Ne.symm hne]

/-- Witness for C1 at a concrete snapshot: lead out, diagnostics clear. -/
theorem destination_correct_witness : destination stateOut = ["MAIN"] :=
  ((destination_correct stateOut (by decide)).1 rfl).2

/-- Claim C2: the diagnostics are clear iff the yag screen, the dectris
insert and the foil are all in a removed state; the diode's state has no
effect on the result. -/
theorem dia_clear_correct :
    ∀ (s : LodcmState) (d : String),
      (diaClear s = true ↔
        s.yag = "OUT" ∧ (s.dectris = "OUT" ∨ s.dectris = "OUTLOW") ∧
          s.foil = "OUT") ∧
      diaClear { s with diode := d } = diaClear s := by
  intro s d
  refine ⟨?_, rfl⟩
  simp [diaClear, removedState, yagOutStates, dectrisOutStates, foilOutStates,
    List.contains, and_assoc]

/-- Claim C3: `get_material` raises the indeterminate-material error when
`check` is set and either tower is indeterminate; otherwise, whenever the
two per-tower results differ it raises the mismatch error regardless of
`check` (in particular tower1 = C, tower2 = Si always raises mismatch),
and when they agree it returns the agreed label or the `None` sentinel. -/
theorem get_material_correct (s : LodcmState) (check : Bool) :
    (check = true → (tower1Mat s = none ∨ tower2Mat s = none) →
      getMaterial check s = Except.error LodcmError.indeterminateMaterial) ∧
    ((check = true → tower1Mat s ≠ none ∧ tower2Mat s ≠ none) →
      tower1Mat s ≠ tower2Mat s →
      getMaterial check s = Except.error LodcmError.mismatch) ∧
    ((check = true → tower1Mat s ≠ none ∧ tower2Mat s ≠ none) →
      tower1Mat s = tower2Mat s →
      getMaterial check s = Except.ok (tower1Mat s)) ∧
    (tower1Mat s = some "C" → tower2Mat s = some "Si" →
      getMaterial check s = Except.error LodcmError.mismatch) := by
  rcases h1 : tower1Mat s with _ | m1 <;> rcases h2 : tower2Mat s with _ | m2 <;>
    cases check <;> simp_all [getMaterial_eq]

/-- Witness for C3: tower 1 diamond against tower 2 silicon raises the
mismatch error for both values of `check`. -/
theorem get_material_correct_witness :
    getMaterial false stateT1C2Si = Except.error LodcmError.mismatch ∧
    getMaterial true stateT1C2Si = Except.error LodcmError.mismatch :=
  ⟨(get_material_correct stateT1C2Si false).2.2.2 (by decide) (by decide),
   (get_material_correct stateT1C2Si true).2.2.2 (by decide) (by decide)⟩

/-- Claim C10: with `check = False`, `get_material` returns the `None`
sentinel without raising when both towers are indeterminate, but raises
the mismatch error when exactly one tower is indeterminate. -/
theorem get_material_soft (s : LodcmState) :
    (tower1Mat s = none → tower2Mat s = none →
      getMaterial false s = Except.ok none) ∧
    (tower1Mat s = none → tower2Mat s ≠ none →
      getMaterial false s = Except.error LodcmError.mismatch) ∧
    (tower1Mat s ≠ none → tower2Mat s = none →
      getMaterial false s = Except.error LodcmError.mismatch) := by
  rcases h1 : tower1Mat s with _ | m1 <;> rcases h2 : tower2Mat s with _ | m2 <;>
    simp_all [getMaterial_eq]

/-- Witness for C10: both towers unknown gives `None`; tower 1 unknown
against tower 2 silicon raises mismatch. -/
theorem get_material_soft_witness :
    getMaterial false stateAllUn = Except.ok none ∧
    getMaterial false stateT1Un = Except.error LodcmError.mismatch :=
  ⟨(get_material_soft stateAllUn).1 (by decide) (by decide),
   (get_material_soft stateT1Un).2.1 (by decide) (by decide)⟩

lemma tower1Mat_eq_c (s : LodcmState) :
    tower1Mat s = some "C" ↔ isTower1C s = true := by
  by_cases h1 : isTower1C s <;> by_cases h2 : isTower1Si s <;>
    simp [tower1Mat, h1, h2]

lemma tower1Mat_eq_si (s : LodcmState) :
    tower1Mat s = some "Si" ↔ isTower1Si s = true := by
  by_cases h1 : isTower1C s <;> by_cases h2 : isTower1Si s
  · exact (not_tower1_both s h1 h2).elim
  · simp [tower1Mat, h1, h2]
  · simp [tower1Mat, h1, h2]
  · simp [tower1Mat, h1, h2]

lemma tower2Mat_eq_c (s : LodcmState) :
    tower2Mat s = some "C" ↔ isTower2C s = true := by
  by_cases h1 : isTower2C s <;> by_cases h2 : isTower2Si s <;>
    simp [tower2Mat, h1, h2]

lemma tower2Mat_eq_si (s : LodcmState) :
    tower2Mat s = some "Si" ↔ isTower2Si s = true := by
  by_cases h1 : isTower2C s <;> by_cases h2 : isTower2Si s
  · exact (not_tower2_both s h1 h2).elim
  · simp [tower2Mat, h1, h2]
  · simp [tower2Mat, h1, h2]
  · simp [tower2Mat, h1, h2]

lemma tower1Mat_eq_none (s : LodcmState) :
    tower1Mat s = none ↔ isTower1C s = false ∧ isTower1Si s = false := by
  by_cases h1 : isTower1C s <;> by_cases h2 : isTower1Si s <;>
    simp [tower1Mat, h1, h2]

lemma tower2Mat_eq_none (s : LodcmState) :
    tower2Mat s = none ↔ isTower2C s = false ∧ isTower2Si s = false := by
  by_cases h1 : isTower2C s <;> by_cases h2 : isTower2Si s <;>
    simp [tower2Mat, h1, h2]

/-- Claim C4: a tower classifies as material M iff every constituent
positioner reports M, except that tower 1's lead (`h1n`) is also accepted
at `OUT`; with no fitting material the classification is the `None`
sentinel; and with all tower-1 positioners at Si (lead included) the
first-tower material is Si. -/
theorem tower_material_correct (s : LodcmState) :
    (tower1Mat s = some "C" ↔
      (s.h1n = "C" ∨ s.h1n = "OUT") ∧ s.y1_state = "C" ∧
        s.chi1_state = "C") ∧
    (tower1Mat s = some "Si" ↔
      (s.h1n = "Si" ∨ s.h1n = "OUT") ∧ s.y1_state = "Si" ∧
        s.chi1_state = "Si") ∧
    (tower2Mat s = some "C" ↔
      s.h2n_state = "C" ∧ s.y2_state = "C" ∧ s.chi2_state = "C") ∧
    (tower2Mat s = some "Si" ↔
      s.h2n_state = "Si" ∧ s.y2_state = "Si" ∧ s.chi2_state = "Si") ∧
    (tower1Mat s = none ↔ isTower1C s = false ∧ isTower1Si s = false) ∧
    (tower2Mat s = none ↔ isTower2C s = false ∧ isTower2Si s = false) ∧
    (s.h1n = "Si" → s.y1_state = "Si" → s.chi1_state = "Si" →
      getFirstTowerMaterial false s = Except.ok (some "Si")) := by
  refine ⟨?_, ?_, ?_, ?_, tower1Mat_eq_none s, tower2Mat_eq_none s, ?_⟩
  · rw [tower1Mat_eq_c, isTower1C_iff]
  · rw [tower1Mat_eq_si, isTower1Si_iff]
  · rw [tower2Mat_eq_c, isTower2C_iff]
  · rw [tower2Mat_eq_si, isTower2Si_iff]
  · intro h1 h2 h3
    have hsi : tower1Mat s = some "Si" := by
      rw [tower1Mat_eq_si, isTower1Si_iff]
      exact ⟨Or.inl h1, h2, h3⟩
    have he := getMaterialTower_one false s
    rw [hsi] at he
    exact he

/-- Witness for C4: all tower-1 positioners of `stateSi` read Si. -/
theorem tower_material_correct_witness :
    getFirstTowerMaterial false stateSi = Except.ok (some "Si") :=
  (tower_material_correct stateSi).2.2.2.2.2.2 rfl rfl rfl

lemma towerRefs_one_none (s : LodcmState) :
    tower1Mat s = none → towerRefs 1 s = none := by
  rw [tower1Mat_eq_none]
  rintro ⟨h1, h2⟩
  simp [towerRefs, h1, h2]

lemma towerRefs_one_c (s : LodcmState) :
    tower1Mat s = some "C" → towerRefs 1 s = some s.t1_c_ref := by
  rw [tower1Mat_eq_c]
  intro h1
  simp [towerRefs, h1]

lemma towerRefs_one_si (s : LodcmState) :
    tower1Mat s = some "Si" → towerRefs 1 s = some s.t1_si_ref := by
  rw [tower1Mat_eq_si]
  intro h2
  have h1 : isTower1C s = false := by
    cases hc : isTower1C s
    · rfl
    · exact (not_tower1_both s hc h2).elim
  simp [towerRefs, h1, h2]

lemma towerRefs_two_none (s : LodcmState) :
    tower2Mat s = none → towerRefs 2 s = none := by
  rw [tower2Mat_eq_none]
  rintro ⟨h1, h2⟩
  simp [towerRefs, h1, h2]

lemma towerRefs_two_c (s : LodcmState) :
    tower2Mat s = some "C" → towerRefs 2 s = some s.t2_c_ref := by
  rw [tower2Mat_eq_c]
  intro h1
  simp [towerRefs, h1]

lemma towerRefs_two_si (s : LodcmState) :
    tower2Mat s = some "Si" → towerRefs 2 s = some s.t2_si_ref := by
  rw [tower2Mat_eq_si]
  intro h2
  have h1 : isTower2C s = false := by
    cases hc : isTower2C s
    · rfl
    · exact (not_tower2_both s hc h2).elim
  simp [towerRefs, h1, h2]

/-- Claim C5: per-tower reflection resolution raises the indeterminate
error when the tower's material is indeterminate and `check` is set,
returns `None` instead when `check` is unset, and for a determinate
material returns the register of that tower and material. -/
theorem get_reflection_correct (s : LodcmState) (asTuple check : Bool) :
    (tower1Mat s = none →
      getReflectionTower 1 asTuple true s =
        Except.error LodcmError.indeterminateReflection) ∧
    (tower1Mat s = none →
      getReflectionTower 1 asTuple false s = Except.ok none) ∧
    (tower1Mat s = some "C" →
      getReflectionTower 1 true check s =
        Except.ok (some (RefVal.tup s.t1_c_ref))) ∧
    (tower1Mat s = some "Si" →
      getReflectionTower 1 true check s =
        Except.ok (some (RefVal.tup s.t1_si_ref))) ∧
    (tower2Mat s = none →
      getReflectionTower 2 asTuple true s =
        Except.error LodcmError.indeterminateReflection) ∧
    (tower2Mat s = none →
      getReflectionTower 2 asTuple false s = Except.ok none) ∧
    (tower2Mat s = some "C" →
      getReflectionTower 2 true check s =
        Except.ok (some (RefVal.tup s.t2_c_ref))) ∧
    (tower2Mat s = some "Si" →
      getReflectionTower 2 true check s =
        Except.ok (some (RefVal.tup s.t2_si_ref))) := by
  refine ⟨?_, ?_, ?_, ?_, ?_, ?_, ?_, ?_⟩
  · intro h
    simp [getReflectionTower, towerRefs_one_none s h]
  · intro h
    cases asTuple <;> simp [getReflectionTower, towerRefs_one_none s h]
  · intro h
    simp [getReflectionTower, towerRefs_one_c s h]
  · intro h
    simp [getReflectionTower, towerRefs_one_si s h]
  · intro h
    simp [getReflectionTower, towerRefs_two_none s h]
  · intro h
    cases asTuple <;> simp [getReflectionTower, towerRefs_two_none s h]
  · intro h
    simp [getReflectionTower, towerRefs_two_c s h]
  · intro h
    simp [getReflectionTower, towerRefs_two_si s h]

/-- Witness for C5: tower 1 of `stateSi` resolves to its Si register;
tower 1 of `stateT1Un` is indeterminate and soft mode yields `None`. -/
theorem get_reflection_correct_witness :
    getReflectionTower 1 true false stateSi =
        Except.ok (some (RefVal.tup [1, 1, 1])) ∧
    getReflectionTower 1 true false stateT1Un = Except.ok none :=
  ⟨(get_reflection_correct stateSi true false).2.2.2.1 (by decide),
   (get_reflection_correct stateT1Un true false).2.1 (by decide)⟩

lemma renderRefLoop_aux (l : List Int) (a : String) :
    l.foldl
      (fun ref r =>
        match ref with
        | none => some (toString r)
        | some b => some (b ++ toString r))
      (some a) = some (a ++ strConcat l) := by
  induction l generalizing a with
  | nil => simp [strConcat]
  | cons x xs ih =>
    simp only [List.foldl, strConcat]
    rw [ih]
    simp [String.append_assoc]

lemma renderRefLoop_cons (x : Int) (xs : List Int) :
    renderRefLoop (x :: xs) = some (strConcat (x :: xs)) := by
  simp only [renderRefLoop, List.foldl, strConcat]
  exact renderRefLoop_aux xs (toString x)

/-- Claim C6: with `as_tuple = False` and a resolved (non-empty)
reflection tuple, the reflection query returns the concatenation, in
order, of the string renderings of the tuple's components; for
`(1, 1, 1)` that string is `"111"`. -/
theorem reflection_render_correct :
    (∀ (n : Nat) (s : LodcmState) (check : Bool) (l : List Int),
      towerRefs n s = some l → l ≠ [] →
      getReflectionTower n false check s =
        Except.ok (some (RefVal.strVal (strConcat l)))) ∧
    strConcat [(1 : Int), 1, 1] = "111" := by
  constructor
  · intro n s check l hrefs hl
    cases l with
    | nil => exact absurd rfl hl
    | cons x xs =>
      simp [getReflectionTower, hrefs, renderRefLoop_cons]
  · rfl

/-- Witness for C6: the Si register `(1, 1, 1)` of `stateSi` renders as
the string `"111"`. -/
theorem reflection_render_correct_witness :
    getReflectionTower 1 false false stateSi =
      Except.ok (some (RefVal.strVal "111")) :=
  reflection_render_correct.1 1 stateSi false [1, 1, 1] (by decide) (by decide)

/-- Claim C7: `get_energy` (first tower) resolves material and reflection
via tower-1 inference when not supplied, reads `th1_si` for Si and
`th1_c` for C, and returns
`wavelength_to_energy(2 * sin(deg2rad(th)) * d_space(material, reflection)) / 1000`. -/
theorem get_energy_correct (c : GeomCalc) (s : LodcmState) :
    (tower1Mat s = some "Si" →
      getEnergy c s none none =
        Except.ok (c.wavelengthToEnergy
          (2 * c.sin (c.deg2rad s.th1_si) * c.dSpace "Si" s.t1_si_ref) /
            1000)) ∧
    (tower1Mat s = some "C" →
      getEnergy c s none none =
        Except.ok (c.wavelengthToEnergy
          (2 * c.sin (c.deg2rad s.th1_c) * c.dSpace "C" s.t1_c_ref) /
            1000)) := by
  constructor
  · intro h
    have hrefs := towerRefs_one_si s h
    have hm := getMaterialTower_one true s
    rw [h] at hm
    simp [getEnergy, getFirstTowerEnergy, getFirstTowerMaterial, hrefs, hm,
      Except.instMonad, Except.bind]
  · intro h
    have hrefs := towerRefs_one_c s h
    have hm := getMaterialTower_one true s
    rw [h] at hm
    simp [getEnergy, getFirstTowerEnergy, getFirstTowerMaterial, hrefs, hm,
      Except.instMonad, Except.bind]

/-- Witness for C7: the energy path evaluated at `stateSi` with the
concrete calculator `calc1`:
`wavelengthToEnergy (2 * sin (deg2rad 10) * 3) = 2 * 20 * 3 + 1 = 121`. -/
theorem get_energy_correct_witness :
    getEnergy calc1 stateSi none none = Except.ok (121 / 1000) := by
  have h := (get_energy_correct calc1 stateSi).1 (by decide)
  norm_num [calc1, stateSi] at h
  exact h

/-- Claim C9: `remove_dia` commands yag, dectris, diode and foil — a
strict superset of the devices consulted by `_dia_clear` (yag, dectris,
foil): the diode, which never affects `_dia_clear`, is still commanded. -/
theorem remove_dia_devices_correct :
    diaClearDevices ⊆ removeDiaDevices ∧
    ¬ removeDiaDevices ⊆ diaClearDevices ∧
    DiaDevice.diode ∈ removeDiaDevices ∧
    DiaDevice.diode ∉ diaClearDevices ∧
    ∀ (s : LodcmState) (d : String),
      diaClear { s with diode := d } = diaClear s := by
  refine ⟨?_, ?_, by decide, by decide, fun s d => rfl⟩
  · intro a ha
    fin_cases ha <;> decide
  · intro hsub
    exact absurd (hsub (show DiaDevice.diode ∈ removeDiaDevices by decide))
      (by decide)

end Lodcm
